import Mathlib

/-!
Verification development for the apphud.js web SDK.

The definitions below are a shallow embedding of the SDK's TypeScript
sources:
  * `src/core/index.ts` (class `ApphudSDK`): placement selection, the
    readiness gate, the analytics event queue, `paymentForm`;
  * `src/core/paymentForms/formBuilder.ts` (class `FormBuilder`);
  * `src/core/paymentForms/stripeForm.ts` (class `StripeForm`): the
    submit flow, Apple Pay initialization, listener cleanup.

JavaScript strings are modelled as Lean `String` (operated on through
their `data : List Char` representation so that `split`, `trim` and
`parseInt` can be reasoned about), JS numbers used as indices as `Int`,
JS `Map`s as insertion-ordered association lists, and `async` functions
that may reject as `Except`-returning functions.  `undefined`/`null`
are modelled as `Option`.
-/

namespace ApphudSpec

/-! ### JS string primitives used by the SDK

`String.prototype.split(',')`, `String.prototype.trim`, `parseInt`,
and the template-literal rendering of a non-negative number.  These are
the exact primitives used by `selectPlacementProduct` (writing the
`"placementID,bundleIndex"` cookie) and `getSavedPlacementBundleIndex`
(reading it back). -/

/-- Characters removed by `String.prototype.trim` (the common ASCII
whitespace subset; the SDK only ever faces identifiers and digits). -/
def isJsWs (c : Char) : Bool :=
  c = ' ' || c = '\t' || c = '\n' || c = '\r'

/-- `s.split(',')` on the character list: split at every comma,
keeping empty segments, as JS does. -/
def splitCommaChars : List Char → List (List Char)
  | [] => [[]]
  | c :: cs =>
    if c = ',' then [] :: splitCommaChars cs
    else
      match splitCommaChars cs with
      | [] => [[c]]
      | h :: t => (c :: h) :: t

/-- `s.trim()` on the character list. -/
def trimChars (l : List Char) : List Char :=
  ((l.dropWhile isJsWs).reverse.dropWhile isJsWs).reverse

/-- Decimal digit value of a character, `none` when not `0`-`9`. -/
def charToDigit? : Char → Option Nat
  | '9' => some 9
  | '8' => some 8
  | '7' => some 7
  | '6' => some 6
  | '5' => some 5
  | '4' => some 4
  | '3' => some 3
  | '2' => some 2
  | '1' => some 1
  | '0' => some 0
  | _ => none

/-- Character of a decimal digit (digits `≥ 10` never occur). -/
def digitChar : Nat → Char
  | 9 => '9'
  | 8 => '8'
  | 7 => '7'
  | 6 => '6'
  | 5 => '5'
  | 4 => '4'
  | 3 => '3'
  | 2 => '2'
  | 1 => '1'
  | 0 => '0'
  | _ => '0'

def isDigitCharB (c : Char) : Bool := (charToDigit? c).isSome

/-- Big-endian digit fold: the numeric value of a digit run. -/
def digitsVal (l : List Char) : Nat :=
  l.foldl (fun a c => a * 10 + (charToDigit? c).getD 0) 0

/-- The leading digit run of `l` as a number; `none` when `l` does not
start with a digit (JS `parseInt` yields `NaN` then). -/
def parseDigitsPrefix (l : List Char) : Option Nat :=
  let ds := l.takeWhile isDigitCharB
  if ds.isEmpty then none else some (digitsVal ds)

/-- Core of `parseInt` on an already whitespace-stripped character
list: optional sign, then the leading digit run. -/
def jsParseIntChars (l : List Char) : Option Int :=
  if l.head? = some '-' then (parseDigitsPrefix l.tail).map (fun n => -(n : Int))
  else if l.head? = some '+' then (parseDigitsPrefix l.tail).map (fun n => (n : Int))
  else (parseDigitsPrefix l).map (fun n => (n : Int))

/-- `parseInt(s)` (radix 10): skip leading whitespace, optional sign,
then the leading digit run; `none` models `NaN`. -/
def jsParseInt (s : String) : Option Int :=
  jsParseIntChars (s.data.dropWhile isJsWs)

/-- Little-endian decimal digits of `n`, with explicit fuel so the
recursion is structural (`fuel ≥ n` suffices). -/
def toDigitsLE : Nat → Nat → List Nat
  | 0, _ => []
  | fuel + 1, n => if n = 0 then [] else n % 10 :: toDigitsLE fuel (n / 10)

/-- Decimal rendering of a `Nat` (the template literal `` `${n}` `` for
a non-negative JS number): big-endian digits of `n`. -/
def natToChars (n : Nat) : List Char :=
  if n = 0 then ['0'] else ((toDigitsLE n n).reverse).map digitChar

/-- Rendering of the JS number `bundleIndex` (an `Int` in the model). -/
def intToChars (i : Int) : List Char :=
  if i < 0 then '-' :: natToChars i.natAbs else natToChars i.natAbs

def jsSplitComma (s : String) : List String :=
  (splitCommaChars s.data).map fun l => ⟨l⟩

def jsTrim (s : String) : String := ⟨trimChars s.data⟩

/-! ### Selection cookie round-trip (claim C3)

`selectPlacementProduct` persists
``setCookie(SelectedBundleIndex, `${placementID},${bundleIndex}`, ...)``
and `getSavedPlacementBundleIndex` reads the cookie back:

```
const arr = savedIndices.split(',').map(s => s.trim());
if (arr.length === 2) {
  return { placementID: arr[0], bundleIndex: parseInt(arr[1]) }
}
return { placementID: undefined, bundleIndex: 0 }
```
-/

/-- The string written to the `SelectedBundleIndex` cookie:
`` `${placementID},${bundleIndex}` ``. -/
def persistedSelection (placementID : String) (bundleIndex : Int) : String :=
  ⟨placementID.data ++ ',' :: intToChars bundleIndex⟩

/-- Result shape of `getSavedPlacementBundleIndex`; `bundleIndex = none`
models the JS `NaN` that `parseInt` can produce. -/
structure SavedSelection where
  placementID : Option String
  bundleIndex : Option Int
  deriving DecidableEq, Repr

/-- The cookie-present branch of `getSavedPlacementBundleIndex`:
`savedIndices.split(',').map(s => s.trim())`, then the
`arr.length === 2` guard with `arr[0]` / `arr[1]` on success. -/
def readSavedSelection (savedIndices : String) : SavedSelection :=
  match (jsSplitComma savedIndices).map jsTrim with
  | [a, b] => { placementID := some a, bundleIndex := jsParseInt b }
  | _ => { placementID := none, bundleIndex := some 0 }

def getSavedPlacementBundleIndex (cookie : Option String) : SavedSelection :=
  match cookie with
  | none => { placementID := none, bundleIndex := some 0 }
  | some savedIndices => readSavedSelection savedIndices

/-! ### Data model (`src/types/apphud.ts`)

Provider kinds are kept as raw strings, as they arrive from the backend
JSON at runtime (the TS union `"stripe" | "paddle"` is not enforced at
runtime, and `FormBuilder.show` has an explicit branch for an
unrecognized kind). -/

structure Product where
  id : String
  product_id : String
  base_plan_id : String
  store : String
  deriving DecidableEq, Repr

structure PaymentProvider where
  id : String
  identifier : String
  kind : String
  deriving DecidableEq, Repr

/-- `ProductBundle.properties` is the localized property map
`{[language]: {[key]: string}}`; `none` models a bundle without the
`properties` field. -/
structure ProductBundle where
  id : String
  name : String
  products : List Product
  properties : Option (List (String × List (String × String)))
  deriving DecidableEq, Repr

structure Paywall where
  id : String
  items_v2 : List ProductBundle
  deriving DecidableEq, Repr

structure Placement where
  id : String
  identifier : String
  paywalls : List Paywall
  deriving DecidableEq, Repr

/-! ### JS `Map` as an insertion-ordered association list -/

/-- `Map.prototype.set`: overwrite in place if the key exists, else
append. -/
def mapSet {α : Type} : List (String × α) → String → α → List (String × α)
  | [], k, v => [(k, v)]
  | (k', v') :: t, k, v =>
    if k' = k then (k, v) :: t else (k', v') :: mapSet t k v

/-- `Map.prototype.get`. -/
def mapGet {α : Type} : List (String × α) → String → Option α
  | [], _ => none
  | (k', v') :: t, k => if k' = k then some v' else mapGet t k

/-- `Map.prototype.delete`. -/
def mapDelete {α : Type} : List (String × α) → String → List (String × α)
  | [], _ => []
  | (k', v') :: t, k => if k' = k then t else (k', v') :: mapDelete t k

/-- `array[i]` for a JS number index: `undefined` when out of range
(including negative and fractional-but-we-model-integer indices). -/
def jsIndex {α : Type} (l : List α) (i : Int) : Option α :=
  if h : 0 ≤ i ∧ i.toNat < l.length then some (l.get ⟨i.toNat, h.2⟩) else none

/-! ### SDK selection state (`class ApphudSDK`, `src/core/index.ts`)

The fields of `ApphudSDK` that the placement/bundle selection reads or
writes.  The `SelectedBundleIndex` cookie is carried in the state
(`selectedBundleCookie`); `reportedPlacementErrors` is the dedup set of
`findPlacementByID`.  Logging (`log` / `logError`) has no effect on
this state and is not modelled. -/

structure SDKState where
  placements : List Placement
  /-- `user.payment_providers` (with `|| []` applied). -/
  paymentProviders : List PaymentProvider
  currentPlacement : Option Placement
  currentPaywall : Option Paywall
  currentBundle : Option ProductBundle
  /-- `_currentProducts : Map<PaymentProviderKind, Product>` -/
  currentProducts : List (String × Product)
  /-- `currentPaymentProviders : Map<PaymentProviderKind, PaymentProvider>` -/
  currentPaymentProviders : List (String × PaymentProvider)
  /-- value of the `SelectedBundleIndex` cookie -/
  selectedBundleCookie : Option String
  /-- `reportedPlacementErrors : Set<string>` -/
  reportedPlacementErrors : List String
  deriving DecidableEq, Repr

/-- Result of `findPlacementByID`: the found placement, the state (the
dedup set may grow), and whether the error was reported this time. -/
structure FindResult where
  placement : Option Placement
  state : SDKState
  reported : Bool

/-- `ApphudSDK.findPlacementByID`: find by external `identifier`; on a
miss, log + report the error only if this identifier was not already
reported, and remember it. -/
def findPlacementByID (s : SDKState) (id : String) : FindResult :=
  match s.placements.find? (fun p => p.identifier = id) with
  | some p => { placement := some p, state := s, reported := false }
  | none =>
    if id ∈ s.reportedPlacementErrors then
      { placement := none, state := s, reported := false }
    else
      { placement := none,
        state := { s with
          reportedPlacementErrors := s.reportedPlacementErrors ++ [id] },
        reported := true }

/-- The `bundle.products.forEach` loop of `updateProductsAndProviders`,
run over maps that were just cleared: for each product find an enabled
provider whose `kind` equals the product's `store`; if found, add the
pair to both maps, otherwise only log. -/
def updFold (products : List Product)
    (paymentProviders : List PaymentProvider) :
    List (String × Product) × List (String × PaymentProvider) :=
  products.foldl
    (fun maps product =>
      match paymentProviders.find? (fun pr => pr.kind = product.store) with
      | some pr =>
        (mapSet maps.1 product.store product, mapSet maps.2 product.store pr)
      | none => maps)  -- logError, continue with the remaining products
    ([], [])

/-- `ApphudSDK.updateProductsAndProviders`: clear both maps, rebuild
them from the bundle, and report success iff the provider map is
non-empty. -/
def updateProductsAndProviders (bundle : ProductBundle)
    (paymentProviders : List PaymentProvider) :
    List (String × Product) × List (String × PaymentProvider) × Bool :=
  ((updFold bundle.products paymentProviders).1,
   (updFold bundle.products paymentProviders).2,
   !(updFold bundle.products paymentProviders).2.isEmpty)

/-- `ApphudSDK.setCurrentItems`: set `_currentPlacement` (to the lookup
result, even when `undefined`), and when a paywall and the indexed
bundle exist, set `_currentPaywall` / `_currentBundle` and rebuild the
product/provider maps when the bundle has products.  The price-macro
presence check only logs and is omitted. -/
def setCurrentItems (s : SDKState) (placementID : String)
    (bundleIndex : Int) : SDKState :=
  let r := findPlacementByID s placementID
  let s := { r.state with currentPlacement := r.placement }
  match r.placement with
  | none => s
  | some p =>
    match p.paywalls with
    | [] => s
    | pw :: _ =>
      let s := { s with currentPaywall := some pw }
      match jsIndex pw.items_v2 bundleIndex with
      | none => s
      | some bundle =>
        let s := { s with currentBundle := some bundle }
        if bundle.products.isEmpty then
          s  -- logError "Bundle contains no products"
        else
          let m := updateProductsAndProviders bundle s.paymentProviders
          { s with currentProducts := m.1, currentPaymentProviders := m.2.1 }

/-- `ApphudSDK.selectPlacementProduct`.  Returns the new state and
whether the selection succeeded (reached the cookie write and the
`product_changed` emission).  Failure paths are the early `return`s of
the source: unknown placement / empty paywall list, missing bundle at
the index, and `updateProductsAndProviders` reporting no compatible
provider — the latter only after the instance maps have already been
cleared and rebuilt by that very call. -/
def selectPlacementProduct (s : SDKState) (placementID : String)
    (bundleIndex : Int) : SDKState × Bool :=
  let r := findPlacementByID s placementID
  match r.placement with
  | none => (r.state, false)
  | some placement =>
    match placement.paywalls with
    | [] => (r.state, false)
    | paywall :: _ =>
      match jsIndex paywall.items_v2 bundleIndex with
      | none => (r.state, false)
      | some selectedBundle =>
        -- `const success = this.updateProductsAndProviders(...)` mutates
        -- the two instance maps (clear + rebuild) before reporting
        let m := updateProductsAndProviders selectedBundle
          r.state.paymentProviders
        let s1 := { r.state with
          currentProducts := m.1, currentPaymentProviders := m.2.1 }
        if !m.2.2 then (s1, false)
        else
          let s2 := setCurrentItems s1 placementID bundleIndex
          let s3 := { s2 with
            selectedBundleCookie :=
              some (persistedSelection placementID bundleIndex) }
          (s3, true)

/-! ### Readiness gate (`ApphudSDK.ready` / `ApphudSDK.setReady`)

Callbacks are opaque tokens (`Nat`); `executed` is the log of run
callbacks in execution order.  `ready(cb)` runs `cb` immediately when
the gate is open and queues it otherwise; `setReady` drains the queue
in order (`while ((callback = this.queue.shift())) callback()`) and
then opens the gate. -/

structure GateState where
  isReady : Bool
  queue : List Nat
  executed : List Nat
  deriving DecidableEq, Repr

/-- `ApphudSDK.ready(callback)`. -/
def ready (s : GateState) (cb : Nat) : GateState :=
  if s.isReady then { s with executed := s.executed ++ [cb] }
  else { s with queue := s.queue ++ [cb] }

/-- `ApphudSDK.setReady` (the `initial` flag only controls the public
`"ready"` event emission and is not modelled). -/
def setReady (s : GateState) : GateState :=
  { s with executed := s.executed ++ s.queue, queue := [], isReady := true }

/-! ### Analytics events (`ApphudSDK.track` / `ApphudSDK.trackEvent`) -/

/-- `EventData` (`src/types/apphud.ts`).  `properties` and
`user_properties` are modelled as string maps. -/
structure EventData where
  id : Option String
  name : String
  properties : List (String × String)
  user_properties : List (String × String)
  insert_id : Option String
  timestamp : Option Int
  device_id : Option String
  user_id : Option String
  deriving DecidableEq, Repr

/-- The event object literal constructed by `ApphudSDK.track`: it sets
`name`, `properties`, `user_properties`, `timestamp` and a freshly
generated `insert_id` — and never the optional `id` field. -/
def mkTrackEvent (name : String) (properties userProperties :
    List (String × String)) (timestamp : Int) (insertId : String) :
    EventData :=
  { id := none, name := name, properties := properties,
    user_properties := userProperties, insert_id := some insertId,
    timestamp := some timestamp, device_id := none, user_id := none }

/-- The part of the `ApphudSDK` state that `track` touches: the
readiness gate and the persisted outbound event queue
(`this.eventQueue`, mirrored into the `EventsKey` cookie by
`saveEventQueue`).  A queued-entry of `pendingTrackCallbacks` stands
for the ready-callback that `track` registered for that event. -/
structure TrackState where
  isReady : Bool
  pendingTrackCallbacks : List EventData
  eventQueue : List EventData
  deriving DecidableEq, Repr

/-- `ApphudSDK.track(name, properties, userProperties, ...)`: build the
event, register the ready-callback that enqueues it (run at once when
the gate is open), and `return true` unconditionally. -/
def track (s : TrackState) (event : EventData) : TrackState × Bool :=
  ((if s.isReady
    then { s with eventQueue := s.eventQueue ++ [event] }
    else { s with
      pendingTrackCallbacks := s.pendingTrackCallbacks ++ [event] }),
   true)

/-- The success continuation of `api.createEvent(...)` inside
`ApphudSDK.trackEvent(event)`:

```
for (let i = 0; i < this.eventQueue.length; i++) {
  if (this.eventQueue[i].id === event.id) {
    this.eventQueue.splice(i, 1)
    break
  }
}
```

remove the *first* queue entry whose `id` strictly equals the
delivered event's `id` (`undefined === undefined` is `true`), then
stop. -/
def removeDeliveredEvent (queue : List EventData) (event : EventData) :
    List EventData :=
  match queue with
  | [] => []
  | e :: rest =>
    if e.id = event.id then rest else e :: removeDeliveredEvent rest event

/-! ### Stripe checkout submit flow (`StripeForm.setupForm`)

The submit handler attached by `setupForm` runs, in order: button to
`processing`; guards on the Stripe and Elements handles; `confirmSetup`
(step 1); `createSubscription` (step 2, `try`/`catch`, also failing
when the response is null); `confirmCardPayment` iff the subscription
response carries a `client_secret` (step 3); and finally
`handleSuccessfulPayment` (deep-link/provider cookies plus the delayed
success redirect / `onSuccess` callback).  The handler is embedded as a
trace of its externally visible actions, as a function of the outcomes
of the three awaited provider calls. -/

structure Subscription where
  id : Option String
  client_secret : Option String
  deep_link : Option String
  deriving DecidableEq, Repr

inductive StripeAction where
  /-- `setButtonState(...)` -/
  | setButton (state : String)
  /-- `stripe.confirmSetup(...)` (step 1) -/
  | confirmSetupCall
  /-- `createSubscription(...)` → `api.createSubscription` (step 2) -/
  | createSubscriptionCall
  /-- `stripe.confirmCardPayment(client_secret)` (step 3) -/
  | confirmCardPaymentCall (clientSecret : String)
  /-- `formBuilder.emit("payment_failure", {error})` -/
  | emitPaymentFailure (error : String)
  /-- `handleSuccessfulPayment(options)`: cookies + delayed success
  redirect -/
  | handleSuccess
  deriving DecidableEq, Repr

/-- Outcomes of the awaited provider calls, fixed per submit. -/
structure SubmitEnv where
  /-- `this.stripe` is non-null -/
  stripeInited : Bool
  /-- `this.elements` is non-null -/
  elementsInited : Bool
  /-- `confirmSetup` result: error message, or the setup intent's
  `payment_method` id -/
  confirmSetup : Except String String
  /-- `createSubscription` outcome: thrown network error, or the
  (possibly null) subscription response -/
  createSub : Except String (Option Subscription)
  /-- `confirmCardPayment cs` outcome: `some error` or success -/
  confirmCard : String → Option String

/-- The submit handler of `StripeForm.setupForm`, as its action
trace. -/
def stripeSubmitHandler (env : SubmitEnv) : List StripeAction :=
  StripeAction.setButton "processing" ::
  (if env.stripeInited = false then []      -- logError + displayError
   else if env.elementsInited = false then []
   else
     StripeAction.confirmSetupCall ::
     (match env.confirmSetup with
      | .error e =>
        [StripeAction.setButton "ready", StripeAction.emitPaymentFailure e]
      | .ok _pm =>
        StripeAction.createSubscriptionCall ::
        (match env.createSub with
         | .error e =>
           [StripeAction.setButton "error", StripeAction.emitPaymentFailure e]
         | .ok none =>
           [StripeAction.setButton "error",
            StripeAction.emitPaymentFailure "Failed to create subscription"]
         | .ok (some sub) =>
           match sub.client_secret with
           | some cs =>
             StripeAction.confirmCardPaymentCall cs ::
             (match env.confirmCard cs with
              | some ce =>
                [StripeAction.setButton "error",
                 StripeAction.emitPaymentFailure ce]
              | none => [StripeAction.handleSuccess])
           | none => [StripeAction.handleSuccess])))

/-- `a` occurs strictly before `b` in `xs`. -/
def appearsBefore {α : Type} (xs : List α) (a b : α) : Prop :=
  ∃ n, a ∈ xs.take n ∧ b ∈ xs.drop n

/-! ### Apple Pay initialization (`StripeForm.initializeApplePay`)

Price resolution: a static price from the options; else, when the
bundle has a localized property map, the configured price variable
(default `"new-price"`) resolved through `getValueByPath` and parsed
with `parseFloat(s.replace(/[^0-9.]/g, ''))`; a parse failure or a
missing value aborts (logError + `return`) before
`stripe.paymentRequest(...)` is called — so no payment-request object
exists and the Apple Pay button (revealed only in the
`canMakePayment` continuation) is never shown.

`getValueByPath` and `extractCurrencyFromPrice` live in `src/utils`,
whose implementation is outside the sources here (only its `.d.ts`
declarations are present), so both are taken as parameters. -/

structure StaticPrice where
  currency : Option String
  amount : Option ℚ
  deriving DecidableEq, Repr

/-- `options.applePayConfig`.  `priceVar` / `productVar` model the
source's price/product variable-name fields (named `priceMacro` /
`productMacro` there). -/
structure ApplePayCfg where
  staticPrice : Option StaticPrice
  priceVar : Option String
  productLabel : Option String
  productVar : Option String
  deriving DecidableEq, Repr

/-- `s.replace(/[^0-9.]/g, '')` -/
def stripNonNumeric (s : String) : List Char :=
  s.data.filter fun c => isDigitCharB c || c = '.'

/-- fractional/integer digit-run value: `parseFloat` on a string of
digits and dots — leading digit run, optional `.` plus following digit
run; `none` models `NaN`. -/
def jsParseFloatStripped (l : List Char) : Option ℚ :=
  if (l.takeWhile isDigitCharB).isEmpty then
    match l with
    | '.' :: rest =>
      if (rest.takeWhile isDigitCharB).isEmpty then none
      else some ((digitsVal (rest.takeWhile isDigitCharB) : ℚ)
        / (10 : ℚ) ^ (rest.takeWhile isDigitCharB).length)
    | _ => none
  else
    match l.drop (l.takeWhile isDigitCharB).length with
    | '.' :: rest =>
      some ((digitsVal (l.takeWhile isDigitCharB) : ℚ)
        + (digitsVal (rest.takeWhile isDigitCharB) : ℚ)
          / (10 : ℚ) ^ (rest.takeWhile isDigitCharB).length)
    | _ => some (digitsVal (l.takeWhile isDigitCharB) : ℚ)

/-- `Math.round` (half away from zero is irrelevant here: prices are
non-negative, so half-up floor matches). -/
def jsRound (q : ℚ) : Int := ⌊q + 1 / 2⌋

/-- Product-name resolution of `initializeApplePay`:
`productLabel` first; else the product variable through
`getValueByPath` when the bundle has properties (keeping the default
on a miss); else the bundle name when non-empty; else
`'Subscription'`. -/
def resolveProductName (bundle : ProductBundle) (cfg : Option ApplePayCfg)
    (getValueByPath :
      List (String × List (String × String)) → String → Option String) :
    String :=
  match cfg.bind (·.productLabel) with
  | some label => label
  | none =>
    match cfg.bind (·.productVar), bundle.properties with
    | some pv, some props => (getValueByPath props pv).getD "Subscription"
    | _, _ => if bundle.name = "" then "Subscription" else bundle.name

/-- Result of `initializeApplePay`: either an abort (logError +
`return` before `stripe.paymentRequest` — no payment-request object,
button never revealed), or the created payment request's
currency/amount/label. -/
inductive APInitResult where
  | aborted (reason : String)
  | request (currency : String) (amount : ℚ) (label : String)
  deriving DecidableEq, Repr

/-- `StripeForm.initializeApplePay` (modulo the DOM/event wiring that
happens strictly after the payment request object is created). -/
def initApplePay (stripeInited : Bool) (productBundle : Option ProductBundle)
    (cfg : Option ApplePayCfg)
    (getValueByPath :
      List (String × List (String × String)) → String → Option String)
    (extractCurrencyFromPrice : String → String → String) : APInitResult :=
  if stripeInited = false then
    .aborted "Failed to initialize Apple Pay: Stripe not initialized"
  else
    match productBundle with
    | none => .aborted "Failed to initialize Apple Pay: Product bundle is missing"
    | some bundle =>
      -- defaults: `let amount = 0; let currency = 'usd';`
      -- static price branch: `staticPrice.currency || 'usd'`,
      -- `staticPrice.amount || 0`
      match cfg.bind (·.staticPrice), bundle.properties with
      | none, some props =>
        -- `if (!staticPrice && properties)`: resolve the price variable
        let pv := (cfg.bind (·.priceVar)).getD "new-price"
        match getValueByPath props pv with
        | some priceString =>
          match jsParseFloatStripped (stripNonNumeric priceString) with
          | some v =>
            .request (extractCurrencyFromPrice priceString "usd")
              ((jsRound (v * 100) : Int) : ℚ)
              (resolveProductName bundle cfg getValueByPath)
          | none =>
            .aborted ("Failed to parse price from " ++ pv)
        | none =>
          .aborted ("No price found for " ++ pv ++ " in bundle properties")
      | some sp, _ =>
        .request (sp.currency.getD "usd") (sp.amount.getD 0)
          (resolveProductName bundle cfg getValueByPath)
      | none, none =>
        -- no static price and no property map: the variable branch is
        -- skipped and the defaults survive to the payment request
        .request "usd" 0 (resolveProductName bundle cfg getValueByPath)

/-! ### Payment form orchestrator (`FormBuilder`,
`src/core/paymentForms/formBuilder.ts`)

`FormBuilder` keeps at most one form per variant key in
`currentForms`; `show` first cleans up the form stored under the
requested key (`StripeForm.cleanupFormListeners` removes the DOM
`submit` listener and the Apple Pay button `click` listener), then
constructs and stores the new form and runs its `show`.

DOM listeners are modelled by id: `submitListeners` are the `submit`
listeners currently attached to the page's payment form element,
`applePayListeners` the `click` listeners on the Apple Pay button;
`nextHandlerId` supplies fresh ids for newly created handler
closures. -/

structure FormInstance where
  /-- `instanceof StripeForm` -/
  isStripe : Bool
  /-- `StripeForm.submitHandler` (`some h` iff attached) -/
  submitHandler : Option Nat
  /-- `StripeForm.applePayButtonHandler` -/
  applePayHandler : Option Nat
  deriving DecidableEq, Repr

/-- Page/provider-call environment of one `show` run. -/
structure PageEnv where
  /-- the `#stripe-submit` button exists -/
  submitButtonPresent : Bool
  /-- the `#apphud-stripe-payment-form` element exists -/
  formElementPresent : Bool
  /-- the awaited provider call inside `form.show` rejects
  (`api.createCustomer` for Stripe, `api.createSubscription` for
  Paddle) -/
  creationCallRejects : Bool
  /-- the Apple Pay sub-flow reaches listener attachment (payment
  request created, `canMakePayment` reports Apple Pay, button element
  present) -/
  applePayAttachable : Bool
  deriving DecidableEq, Repr

structure BuilderState where
  /-- `provider.kind` of this builder -/
  providerKind : String
  /-- `currentForms : Map<string, PaymentForm>` -/
  forms : List (String × FormInstance)
  submitListeners : List Nat
  applePayListeners : List Nat
  nextHandlerId : Nat
  deriving DecidableEq, Repr

/-- `FormBuilder.getFormKey`: `` `${provider}:${formType}` `` where
`formType` is `"apple_pay"` for Stripe with `options.applePay`, else
`"default"`. -/
def getFormKey (provider : String) (applePay : Bool) : String :=
  provider ++ ":"
    ++ (if provider = "stripe" ∧ applePay = true then "apple_pay"
        else "default")

/-- `StripeForm.cleanupFormListeners`: detach the form's `submit`
handler and Apple Pay `click` handler, nulling both fields. -/
def cleanupFormListeners (s : BuilderState) (f : FormInstance) :
    BuilderState × FormInstance :=
  let s1 := match f.submitHandler with
    | some h => { s with submitListeners := s.submitListeners.erase h }
    | none => s
  let s2 := match f.applePayHandler with
    | some h => { s1 with applePayListeners := s1.applePayListeners.erase h }
    | none => s1
  (s2, { f with submitHandler := none, applePayHandler := none })

/-- `FormBuilder.cleanup(formKey)`: when a form is stored under the
key, run its listener cleanup (Stripe forms only) and drop the map
entry. -/
def cleanupKey (s : BuilderState) (formKey : String) : BuilderState :=
  match mapGet s.forms formKey with
  | some f =>
    let s1 := if f.isStripe then (cleanupFormListeners s f).1 else s
    { s1 with forms := mapDelete s1.forms formKey }
  | none => s

/-- The listener-relevant steps of `StripeForm.show` (the freshly
constructed form is already stored under `formKey`): without
`applePay`, require the submit button, await `createCustomer`
(propagating a rejection), then `setupForm` — its own
`cleanupFormListeners` is a no-op on a fresh instance — attaches the
`submit` handler when the form element exists.  With `applePay`, await
`createCustomer`, then `initializeApplePay` attaches the button
`click` handler when the sub-flow reaches it. -/
def stripeFormShow (s : BuilderState) (formKey : String) (applePay : Bool)
    (env : PageEnv) : BuilderState × Except String Unit :=
  if applePay = false then
    if env.submitButtonPresent = false then (s, .ok ())  -- logError, return
    else if env.creationCallRejects then (s, .error "createCustomer rejected")
    else if env.formElementPresent then
      let attached : FormInstance := ⟨true, some s.nextHandlerId, none⟩
      ({ s with
          submitListeners := s.submitListeners ++ [s.nextHandlerId],
          nextHandlerId := s.nextHandlerId + 1,
          forms := mapSet s.forms formKey attached },
       .ok ())
    else (s, .ok ())  -- logError "no form provided", return
  else
    if env.creationCallRejects then (s, .error "createCustomer rejected")
    else if env.applePayAttachable then
      let attached : FormInstance := ⟨true, none, some s.nextHandlerId⟩
      ({ s with
          applePayListeners := s.applePayListeners ++ [s.nextHandlerId],
          nextHandlerId := s.nextHandlerId + 1,
          forms := mapSet s.forms formKey attached },
       .ok ())
    else (s, .ok ())

/-- `FormBuilder.show` (the option plumbing — intro offer, ids — has
no effect on listeners and is elided): compute the variant key, clean
up the form stored under that exact key, construct the new form for
the provider kind (`throw` on an unrecognized kind), store it, and run
its `show` (whose rejection propagates — `FormBuilder.show` has no
`try`/`catch`).  `PaddleForm` attaches no DOM listeners; its `show`
awaits `createSubscription`, whose rejection also propagates. -/
def showForm (s : BuilderState) (applePay : Bool) (env : PageEnv) :
    BuilderState × Except String Unit :=
  let formKey := getFormKey s.providerKind applePay
  let s1 := cleanupKey s formKey
  if s1.providerKind = "stripe" then
    let fresh : FormInstance := ⟨true, none, none⟩
    stripeFormShow { s1 with forms := mapSet s1.forms formKey fresh }
      formKey applePay env
  else if s1.providerKind = "paddle" then
    let fresh : FormInstance := ⟨false, none, none⟩
    ({ s1 with forms := mapSet s1.forms formKey fresh },
     if env.creationCallRejects then .error "createSubscription rejected"
     else .ok ())
  else (s1, .error ("Unsupported type " ++ s1.providerKind))

/-- The `submit` listeners attributable to the card-form key
`"stripe:default"`: the attached handler of the form stored under that
key.  Only that form ever attaches `submit` listeners, so a
well-formed builder state has `submitListeners` equal to exactly this
(see `wfBuilder`). -/
def submitListenersOf (s : BuilderState) : List Nat :=
  match mapGet s.forms "stripe:default" with
  | some f => f.submitHandler.toList
  | none => []

/-- Builder-state invariant (holds for a fresh builder and is
preserved by `showForm`): the attached `submit` listeners are exactly
the stored card form's handler; handler ids are below the fresh-id
counter; the map has no duplicate keys; only the `"stripe:default"`
entry is a Stripe card form holding a `submit` handler. -/
def wfBuilder (s : BuilderState) : Prop :=
  s.submitListeners = submitListenersOf s
  ∧ (∀ h ∈ s.submitListeners, h < s.nextHandlerId)
  ∧ (s.forms.map Prod.fst).Nodup
  ∧ (∀ k f, mapGet s.forms k = some f →
      (k = "stripe:default" → f.isStripe = true)
      ∧ (k ≠ "stripe:default" → f.submitHandler = none))

/-! ### `ApphudSDK.paymentForm` (claim C8)

The public `paymentForm` runs its body behind the readiness gate.  The
body validates the target provider, product, paywall, placement,
product id and user — each failure is caught as `logError(...)` plus an
early `return` (the missing-provider case also emits a
`*_not_found` lifecycle event) — and then `await builder.show(...)`
with no `try`/`catch`: since `ready` discards the async callback's
promise, a rejection from `builder.show` reaches the host page as an
unhandled promise rejection. -/

inductive PFOutcome where
  /-- `logError` + early `return` (optionally with a lifecycle event) -/
  | handled (msg : String)
  | formShown
  /-- the discarded callback promise rejects: an uncaught rejection
  reaches the host page -/
  | uncaughtRejection (msg : String)
  deriving DecidableEq, Repr

structure PaymentFormEnv where
  /-- `options.paymentProvider` -/
  requestedProvider : Option String
  currentPaymentProviders : List (String × PaymentProvider)
  currentProducts : List (String × Product)
  /-- `currentPaywall()` non-null -/
  paywallPresent : Bool
  /-- `currentPlacement()` non-null -/
  placementPresent : Bool
  /-- `this.user` present -/
  userPresent : Bool
  /-- the `product` argument -/
  productArg : Option String
  /-- outcome of `await builder.show(...)` -/
  builderShowResult : Except String Unit

/-- `FormBuilder.show`'s success/rejection as seen by `paymentForm`:
an unrecognized provider kind throws, a Stripe form propagates a
rejected `createCustomer`, a Paddle form a rejected
`createSubscription` (cf. `showForm`). -/
def formBuilderShowOutcome (kind : String)
    (stripeCustomerCall paddleSubscriptionCall : Except String Unit) :
    Except String Unit :=
  if kind = "stripe" then stripeCustomerCall
  else if kind = "paddle" then paddleSubscriptionCall
  else .error ("Unsupported type " ++ kind)

/-- Target-provider resolution of `paymentForm`: the explicitly
requested provider looked up in the current provider map, else the
first available provider (`Array.from(values())[0]`). -/
def resolveTargetProvider (env : PaymentFormEnv) : Option PaymentProvider :=
  match env.requestedProvider with
  | some kind => mapGet env.currentPaymentProviders kind
  | none => (env.currentPaymentProviders.head?).map Prod.snd

/-- The body of `ApphudSDK.paymentForm` (inside the readiness gate). -/
def paymentForm (env : PaymentFormEnv) : PFOutcome :=
  match resolveTargetProvider env with
  | none =>
    (match env.requestedProvider with
     | some kind =>
       -- logError + `${kind}_not_found` event
       .handled ("Requested payment provider " ++ kind ++ " not available")
     | none => .handled "No payment provider available")
  | some provider =>
    match mapGet env.currentProducts provider.kind with
    | none => .handled "Payment form: product is required"
    | some product =>
      if env.paywallPresent = false then
        .handled "Payment form: paywall is required"
      else if env.placementPresent = false then
        .handled "Payment form: placement is required"
      else if (env.productArg.getD product.base_plan_id) = "" then
        .handled "Unable to initialize the payment form because the product is absent."
      else if env.userPresent = false then
        .handled "Payment form: no user"
      else
        match env.builderShowResult with
        | .ok _ => .formShown
        | .error e => .uncaughtRejection e

/-! ### Facts about the string primitives -/

theorem splitCommaChars_ne_nil (l : List Char) : splitCommaChars l ≠ [] := by
  cases l with
  | nil => simp [splitCommaChars]
  | cons c cs =>
    simp only [splitCommaChars]
    split
    · simp
    · rcases h : splitCommaChars cs with _ | ⟨h₁, t⟩ <;> simp

theorem splitCommaChars_no_comma (l : List Char) (h : ',' ∉ l) :
    splitCommaChars l = [l] := by
  induction l with
  | nil => rfl
  | cons c cs ih =>
    simp only [List.mem_cons, not_or] at h
    simp only [splitCommaChars, if_neg (Ne.symm h.1), ih h.2]

theorem splitCommaChars_append (a b : List Char) (h : ',' ∉ a) :
    splitCommaChars (a ++ ',' :: b) = a :: splitCommaChars b := by
  induction a with
  | nil => simp [splitCommaChars]
  | cons c cs ih =>
    simp only [List.mem_cons, not_or] at h
    simp only [List.cons_append, splitCommaChars, if_neg (Ne.symm h.1)]
    rw [show cs.append (',' :: b) = cs ++ ',' :: b from rfl, ih h.2]

theorem dropWhile_eq_self_of_all {p : Char → Bool} {l : List Char}
    (h : ∀ c ∈ l, p c = false) : l.dropWhile p = l := by
  cases l with
  | nil => rfl
  | cons c cs => simp [List.dropWhile, h c (List.mem_cons_self c cs)]

theorem trimChars_eq_self {l : List Char} (h : ∀ c ∈ l, isJsWs c = false) :
    trimChars l = l := by
  unfold trimChars
  rw [dropWhile_eq_self_of_all h, dropWhile_eq_self_of_all, List.reverse_reverse]
  intro c hc
  exact h c (List.mem_reverse.mp hc)

theorem charToDigit?_eq_some {c : Char} {d : Nat} (h : charToDigit? c = some d) :
    d < 10 ∧ c = digitChar d := by
  unfold charToDigit? at h
  split at h <;> (try exact Option.noConfusion h) <;>
    (obtain rfl := Option.some.inj h; decide)

theorem charToDigit?_digitChar {d : Nat} (h : d < 10) :
    charToDigit? (digitChar d) = some d := by
  interval_cases d <;> rfl

theorem digit_not_special {c : Char} (h : isDigitCharB c = true) :
    isJsWs c = false ∧ c ≠ '-' ∧ c ≠ '+' ∧ c ≠ ',' := by
  simp only [isDigitCharB, Option.isSome_iff_exists] at h
  obtain ⟨d, hd⟩ := h
  obtain ⟨hlt, rfl⟩ := charToDigit?_eq_some hd
  interval_cases d <;> exact ⟨rfl, by decide, by decide, by decide⟩

theorem toDigitsLE_eq_digits {fuel n : Nat} (h : n ≤ fuel) :
    toDigitsLE fuel n = Nat.digits 10 n := by
  induction fuel generalizing n with
  | zero =>
    interval_cases n
    simp [toDigitsLE]
  | succ fuel ih =>
    by_cases hn : n = 0
    · subst hn; simp [toDigitsLE]
    · rw [toDigitsLE, if_neg hn,
        Nat.digits_def' (b := 10) (by norm_num) (Nat.pos_of_ne_zero hn),
        ih (by omega)]

theorem natToChars_all_digit {n : Nat} :
    ∀ c ∈ natToChars n, isDigitCharB c = true := by
  intro c hc
  unfold natToChars at hc
  split at hc
  · simp at hc; subst hc; rfl
  · rw [toDigitsLE_eq_digits le_rfl] at hc
    simp only [List.mem_map, List.mem_reverse] at hc
    obtain ⟨d, hd, rfl⟩ := hc
    have hlt : d < 10 := Nat.digits_lt_base (by norm_num) hd
    simp [isDigitCharB, charToDigit?_digitChar hlt]

theorem natToChars_ne_nil (n : Nat) : natToChars n ≠ [] := by
  unfold natToChars
  split
  · simp
  · simp only [ne_eq, List.map_eq_nil_iff, List.reverse_eq_nil_iff]
    rw [toDigitsLE_eq_digits le_rfl]
    simpa [Nat.digits_eq_nil_iff_eq_zero] using ‹¬ n = 0›

theorem foldl_map_digitChar {L : List Nat} {a : Nat} (h : ∀ d ∈ L, d < 10) :
    (L.map digitChar).foldl (fun acc c => acc * 10 + (charToDigit? c).getD 0) a
      = L.foldl (fun acc d => acc * 10 + d) a := by
  induction L generalizing a with
  | nil => rfl
  | cons d L ih =>
    simp only [List.map_cons, List.foldl_cons,
      charToDigit?_digitChar (h d (List.mem_cons_self d L)), Option.getD_some]
    exact ih fun x hx => h x (List.mem_cons_of_mem _ hx)

theorem foldr_eq_ofDigits (L : List Nat) :
    L.foldr (fun d acc => acc * 10 + d) 0 = Nat.ofDigits 10 L := by
  induction L with
  | nil => simp
  | cons d L ih =>
    simp only [List.foldr_cons, ih, Nat.ofDigits_cons]
    ring

theorem digitsVal_natToChars (n : Nat) : digitsVal (natToChars n) = n := by
  by_cases hn : n = 0
  · subst hn; rfl
  · unfold natToChars digitsVal
    rw [if_neg hn, toDigitsLE_eq_digits le_rfl,
      foldl_map_digitChar (fun d hd =>
        Nat.digits_lt_base (by norm_num) (List.mem_reverse.mp hd)),
      List.foldl_reverse, foldr_eq_ofDigits, Nat.ofDigits_digits]

theorem parseDigitsPrefix_natToChars (n : Nat) :
    parseDigitsPrefix (natToChars n) = some n := by
  unfold parseDigitsPrefix
  rw [List.takeWhile_eq_self_iff.mpr natToChars_all_digit]
  rw [if_neg (by simpa [List.isEmpty_iff] using natToChars_ne_nil n)]
  rw [digitsVal_natToChars]

theorem jsParseIntChars_natToChars (n : Nat) :
    jsParseIntChars (natToChars n) = some (n : Int) := by
  have hhead : ∀ c, (natToChars n).head? = some c → isDigitCharB c = true := by
    intro c hc
    exact natToChars_all_digit c (List.mem_of_mem_head? hc)
  obtain ⟨c, hc⟩ : ∃ c, (natToChars n).head? = some c := by
    cases hl : natToChars n with
    | nil => exact absurd hl (natToChars_ne_nil n)
    | cons c rest => exact ⟨c, rfl⟩
  obtain ⟨-, hminus, hplus, -⟩ := digit_not_special (hhead c hc)
  unfold jsParseIntChars
  rw [if_neg (by rw [hc]; simp [hminus]), if_neg (by rw [hc]; simp [hplus]),
    parseDigitsPrefix_natToChars]
  rfl

theorem jsParseInt_natToChars (n : Nat) :
    jsParseInt ⟨natToChars n⟩ = some (n : Int) := by
  unfold jsParseInt
  have hdata : (String.mk (natToChars n)).data = natToChars n := rfl
  rw [hdata, dropWhile_eq_self_of_all
    (fun c hc => (digit_not_special (natToChars_all_digit c hc)).1),
    jsParseIntChars_natToChars]

theorem intToChars_ofNat (n : Nat) : intToChars (n : Int) = natToChars n := by
  simp [intToChars]

/-! ### Claim C3 theorems -/

/-- C3 counterexample: the claim states that the round-trip through the
selection cookie is the identity for every placement identifier without
embedded commas.  The identifier `" main"` contains no comma, but the
restore path applies `trim()` to each component, so the pair
`(" main", 2)` is persisted as `" main,2"` and restored as `("main", 2)`
— a different placement identifier. -/
theorem selection_roundtrip_counterexample :
    (getSavedPlacementBundleIndex
        (some (persistedSelection " main" 2))).placementID = some "main"
      ∧ (" main" : String) ≠ "main" := by
  constructor
  · rfl
  · decide

/-- C3 (amended): for every placement identifier without embedded commas
that carries no leading or trailing whitespace (it equals its own trim),
and every natural bundle index, persisting the pair as the comma-joined
cookie string and reading it back through `getSavedPlacementBundleIndex`
restores exactly the same placement identifier and bundle index. -/
theorem selection_roundtrip (pid : String) (n : Nat)
    (hcomma : ',' ∉ pid.data) (htrim : jsTrim pid = pid) :
    getSavedPlacementBundleIndex (some (persistedSelection pid (n : Int)))
      = { placementID := some pid, bundleIndex := some (n : Int) } := by
  show readSavedSelection (persistedSelection pid (n : Int))
      = { placementID := some pid, bundleIndex := some (n : Int) }
  unfold readSavedSelection persistedSelection
  have hsplit : jsSplitComma ⟨pid.data ++ ',' :: intToChars (n : Int)⟩
      = [⟨pid.data⟩, ⟨intToChars (n : Int)⟩] := by
    unfold jsSplitComma
    have hd : (String.mk (pid.data ++ ',' :: intToChars (n : Int))).data
        = pid.data ++ ',' :: intToChars (n : Int) := rfl
    rw [hd, splitCommaChars_append _ _ hcomma, intToChars_ofNat,
      splitCommaChars_no_comma _
        (fun hmem => by
          have := (digit_not_special (natToChars_all_digit _ hmem)).2.2.2
          exact this rfl)]
    rfl
  rw [hsplit]
  have htrim₂ : jsTrim ⟨intToChars (n : Int)⟩ = ⟨intToChars (n : Int)⟩ := by
    unfold jsTrim
    rw [intToChars_ofNat]
    exact congrArg String.mk (trimChars_eq_self
      (fun c hc => (digit_not_special (natToChars_all_digit c hc)).1))
  have hpid : (⟨pid.data⟩ : String) = pid := rfl
  simp only [List.map_cons, List.map_nil, hpid, htrim, htrim₂]
  rw [intToChars_ofNat]
  simp [jsParseInt_natToChars n]

/-- Witness for `selection_roundtrip` at `("main", 2)`. -/
theorem selection_roundtrip_witness :
    getSavedPlacementBundleIndex (some (persistedSelection "main" (2 : Nat)))
      = { placementID := some "main", bundleIndex := some (2 : Int) } :=
  selection_roundtrip "main" 2 (by decide) (by rfl)

/-! ### Facts about `findPlacementByID` and `updateProductsAndProviders` -/

theorem findPlacementByID_state_fields (s : SDKState) (id : String) :
    (findPlacementByID s id).state.placements = s.placements
      ∧ (findPlacementByID s id).state.paymentProviders = s.paymentProviders
      ∧ (findPlacementByID s id).state.currentPlacement = s.currentPlacement
      ∧ (findPlacementByID s id).state.currentPaywall = s.currentPaywall
      ∧ (findPlacementByID s id).state.currentBundle = s.currentBundle
      ∧ (findPlacementByID s id).state.currentProducts = s.currentProducts
      ∧ (findPlacementByID s id).state.currentPaymentProviders
          = s.currentPaymentProviders
      ∧ (findPlacementByID s id).state.selectedBundleCookie
          = s.selectedBundleCookie := by
  unfold findPlacementByID
  split
  · simp
  · split <;> simp

theorem mapSet_ne_nil {α : Type} (m : List (String × α)) (k : String) (v : α) :
    mapSet m k v ≠ [] := by
  cases m with
  | nil => simp [mapSet]
  | cons p t =>
    obtain ⟨k', v'⟩ := p
    simp only [mapSet]
    split <;> simp

theorem updFold_aux_empty_iff (products : List Product)
    (provs : List PaymentProvider)
    (acc : List (String × Product) × List (String × PaymentProvider))
    (h : acc.1 = [] ↔ acc.2 = []) :
    ((products.foldl
      (fun maps product =>
        match provs.find? (fun pr => pr.kind = product.store) with
        | some pr =>
          (mapSet maps.1 product.store product, mapSet maps.2 product.store pr)
        | none => maps)
      acc).1 = []
    ↔ (products.foldl
      (fun maps product =>
        match provs.find? (fun pr => pr.kind = product.store) with
        | some pr =>
          (mapSet maps.1 product.store product, mapSet maps.2 product.store pr)
        | none => maps)
      acc).2 = []) := by
  induction products generalizing acc with
  | nil => exact h
  | cons product products ih =>
    simp only [List.foldl_cons]
    apply ih
    cases hf : provs.find? (fun pr => pr.kind = product.store) with
    | none => simpa using h
    | some pr =>
      simp only [hf]
      constructor
      · intro hx; exact absurd hx (mapSet_ne_nil _ _ _)
      · intro hx; exact absurd hx (mapSet_ne_nil _ _ _)

theorem updFold_empty_iff (products : List Product)
    (provs : List PaymentProvider) :
    ((updFold products provs).1 = [] ↔ (updFold products provs).2 = []) :=
  updFold_aux_empty_iff products provs ([], []) (by simp)

theorem updateProductsAndProviders_failure (bundle : ProductBundle)
    (provs : List PaymentProvider)
    (h : (updateProductsAndProviders bundle provs).2.2 = false) :
    (updateProductsAndProviders bundle provs).1 = []
      ∧ (updateProductsAndProviders bundle provs).2.1 = [] := by
  unfold updateProductsAndProviders at *
  have h2 : (updFold bundle.products provs).2 = [] := by
    apply List.isEmpty_iff.mp
    by_contra hne
    simp only [Bool.not_eq_true] at hne
    rw [hne] at h
    simp at h
  exact ⟨(updFold_empty_iff bundle.products provs).mpr h2, h2⟩

/-! ### Claim C2 theorems -/

/-- Concrete data for the C2 counterexample: the user has only a Stripe
payment provider, a previous selection filled the product/provider
maps, and the placement `"p"` offers a bundle whose only product is a
Paddle product. -/
def c2ProdStripe : Product :=
  { id := "pr1", product_id := "prod1", base_plan_id := "plan1",
    store := "stripe" }

def c2ProdPaddle : Product :=
  { id := "pr2", product_id := "prod2", base_plan_id := "plan2",
    store := "paddle" }

def c2ProvStripe : PaymentProvider :=
  { id := "pp1", identifier := "acct1", kind := "stripe" }

def c2Bundle : ProductBundle :=
  { id := "b1", name := "Bundle", products := [c2ProdPaddle],
    properties := none }

def c2Paywall : Paywall := { id := "pw1", items_v2 := [c2Bundle] }

def c2Placement : Placement :=
  { id := "pl1", identifier := "p", paywalls := [c2Paywall] }

def c2State : SDKState :=
  { placements := [c2Placement],
    paymentProviders := [c2ProvStripe],
    currentPlacement := none,
    currentPaywall := none,
    currentBundle := none,
    currentProducts := [("stripe", c2ProdStripe)],
    currentPaymentProviders := [("stripe", c2ProvStripe)],
    selectedBundleCookie := none,
    reportedPlacementErrors := [] }

/-- C2 counterexample: selecting placement `"p"`, bundle `0` fails for
a resolution reason (the bundle's only product has no compatible
payment provider), yet the provider-to-product map is *not* the same
after the failed call: `updateProductsAndProviders` cleared it before
discovering the failure. -/
theorem select_failure_counterexample :
    (selectPlacementProduct c2State "p" 0).2 = false
      ∧ (selectPlacementProduct c2State "p" 0).1.currentProducts
          ≠ c2State.currentProducts
      ∧ (selectPlacementProduct c2State "p" 0).1.currentPaymentProviders
          ≠ c2State.currentPaymentProviders := by
  refine ⟨?_, ?_, ?_⟩ <;> decide

/-- C2 (amended): a failed `selectPlacementProduct` leaves the current
placement, paywall and bundle pointers and the persisted selection
cookie unchanged, and the product/provider maps are either unchanged
(lookup and bundle-resolution failures) or both left empty — cleared by
the failed `updateProductsAndProviders` pass, not partially retained
(no-compatible-provider and empty-bundle failures). -/
theorem select_failure_preserves_selection (s : SDKState)
    (placementID : String) (bundleIndex : Int)
    (h : (selectPlacementProduct s placementID bundleIndex).2 = false) :
    (selectPlacementProduct s placementID bundleIndex).1.currentPlacement
        = s.currentPlacement
      ∧ (selectPlacementProduct s placementID bundleIndex).1.currentPaywall
        = s.currentPaywall
      ∧ (selectPlacementProduct s placementID bundleIndex).1.currentBundle
        = s.currentBundle
      ∧ (selectPlacementProduct s placementID bundleIndex).1.selectedBundleCookie
        = s.selectedBundleCookie
      ∧ (((selectPlacementProduct s placementID bundleIndex).1.currentProducts
            = s.currentProducts
          ∧ (selectPlacementProduct s placementID
              bundleIndex).1.currentPaymentProviders
            = s.currentPaymentProviders)
        ∨ ((selectPlacementProduct s placementID bundleIndex).1.currentProducts
            = []
          ∧ (selectPlacementProduct s placementID
              bundleIndex).1.currentPaymentProviders
            = [])) := by
  obtain ⟨-, -, h₁, h₂, h₃, h₄, h₅, h₆⟩ :=
    findPlacementByID_state_fields s placementID
  unfold selectPlacementProduct
  cases hp : (findPlacementByID s placementID).placement with
  | none => simp_all
  | some placement =>
    cases hpw : placement.paywalls with
    | nil => simp_all
    | cons paywall rest =>
      cases hb : jsIndex paywall.items_v2 bundleIndex with
      | none => simp_all
      | some selectedBundle =>
        simp only [hp, hpw, hb]
        by_cases hsucc :
          (updateProductsAndProviders selectedBundle
            (findPlacementByID s placementID).state.paymentProviders).2.2
        · exfalso
          unfold selectPlacementProduct at h
          simp only [hp, hpw, hb, hsucc] at h
          simp at h
        · obtain ⟨hu₁, hu₂⟩ := updateProductsAndProviders_failure _ _
            (by simpa using hsucc)
          simp only [Bool.not_eq_true] at hsucc
          simp [hsucc, h₁, h₂, h₃, h₆, hu₁, hu₂]

/-- Witness for `select_failure_preserves_selection`: looking up the
unknown placement `"nope"` in the C2 state fails and preserves the
selection. -/
theorem select_failure_preserves_selection_witness :
    (selectPlacementProduct c2State "nope" 0).2 = false
      ∧ ((selectPlacementProduct c2State "nope" 0).1.currentPlacement
            = c2State.currentPlacement
        ∧ (selectPlacementProduct c2State "nope" 0).1.currentPaywall
            = c2State.currentPaywall
        ∧ (selectPlacementProduct c2State "nope" 0).1.currentBundle
            = c2State.currentBundle
        ∧ (selectPlacementProduct c2State "nope" 0).1.selectedBundleCookie
            = c2State.selectedBundleCookie
        ∧ (((selectPlacementProduct c2State "nope" 0).1.currentProducts
              = c2State.currentProducts
            ∧ (selectPlacementProduct c2State "nope" 0).1.currentPaymentProviders
              = c2State.currentPaymentProviders)
          ∨ ((selectPlacementProduct c2State "nope" 0).1.currentProducts = []
            ∧ (selectPlacementProduct c2State "nope" 0).1.currentPaymentProviders
              = []))) :=
  ⟨by decide, select_failure_preserves_selection c2State "nope" 0 (by decide)⟩

/-! ### Claim C9 theorems -/

/-- C9: a placement-lookup failure is reported at most once per
distinct identifier: the first failed lookup of a fresh identifier
reports, an immediately following failed lookup of the same identifier
does not, and a different fresh missing identifier still reports. -/
theorem placement_error_reported_once (s : SDKState) (id : String)
    (hmiss : s.placements.find? (fun p => p.identifier = id) = none)
    (hnew : id ∉ s.reportedPlacementErrors) :
    (findPlacementByID s id).reported = true
      ∧ (findPlacementByID (findPlacementByID s id).state id).reported = false
      ∧ ∀ id2, id2 ≠ id →
          s.placements.find? (fun p => p.identifier = id2) = none →
          id2 ∉ s.reportedPlacementErrors →
          (findPlacementByID (findPlacementByID s id).state id2).reported
            = true := by
  have hstate : (findPlacementByID s id).state
      = { s with reportedPlacementErrors
            := s.reportedPlacementErrors ++ [id] } := by
    unfold findPlacementByID
    rw [hmiss]
    simp [hnew]
  refine ⟨?_, ?_, ?_⟩
  · unfold findPlacementByID
    rw [hmiss]
    simp [hnew]
  · rw [hstate]
    unfold findPlacementByID
    simp only at hmiss ⊢
    rw [hmiss]
    simp
  · intro id2 hne hmiss2 hnew2
    rw [hstate]
    unfold findPlacementByID
    simp only at hmiss2 ⊢
    rw [hmiss2]
    simp [hnew2, hne]

/-- Witness for `placement_error_reported_once` on an SDK state with no
placements at all: `"a"` is reported once, then deduplicated, while
`"b"` is still reported. -/
def c9State : SDKState :=
  { placements := [], paymentProviders := [], currentPlacement := none,
    currentPaywall := none, currentBundle := none, currentProducts := [],
    currentPaymentProviders := [], selectedBundleCookie := none,
    reportedPlacementErrors := [] }

theorem placement_error_reported_once_witness :
    (findPlacementByID c9State "a").reported = true
      ∧ (findPlacementByID (findPlacementByID c9State "a").state "a").reported
          = false
      ∧ (findPlacementByID (findPlacementByID c9State "a").state "b").reported
          = true := by
  obtain ⟨h1, h2, h3⟩ :=
    placement_error_reported_once c9State "a" (by decide) (by decide)
  exact ⟨h1, h2, h3 "b" (by decide) (by decide) (by decide)⟩

/-! ### Claim C4 theorems -/

theorem foldl_ready_closed (cbs : List Nat) (pre : GateState)
    (h : pre.isReady = false) :
    cbs.foldl ready pre = { pre with queue := pre.queue ++ cbs } := by
  induction cbs generalizing pre with
  | nil => simp
  | cons cb cbs ih =>
    have hstep : ready pre cb = { pre with queue := pre.queue ++ [cb] } := by
      unfold ready
      rw [if_neg (by simp [h])]
    rw [List.foldl_cons, hstep, ih _ (by simp [h])]
    simp

/-- C4: all `ready(cb)` registrations made while the gate is closed are
queued, not run; `setReady` then runs exactly the queued callbacks, in
their original enqueue order, each exactly once (the execution log is
extended by the queue, so per-token counts add up); and any `ready(cb)`
call made while the gate is open runs `cb` immediately and leaves the
queue untouched. -/
theorem readiness_gate_order (pre : GateState) (cbs : List Nat)
    (h : pre.isReady = false) :
    (cbs.foldl ready pre).executed = pre.executed
      ∧ (cbs.foldl ready pre).queue = pre.queue ++ cbs
      ∧ (setReady (cbs.foldl ready pre)).executed
          = pre.executed ++ pre.queue ++ cbs
      ∧ (setReady (cbs.foldl ready pre)).queue = []
      ∧ (∀ cb, ((setReady (cbs.foldl ready pre)).executed.count cb)
          = pre.executed.count cb + pre.queue.count cb + cbs.count cb)
      ∧ (∀ t cb, t.isReady = true →
          ready t cb = { t with executed := t.executed ++ [cb] }) := by
  rw [foldl_ready_closed cbs pre h]
  refine ⟨rfl, rfl, by simp [setReady], by simp [setReady], ?_, ?_⟩
  · intro cb
    simp only [setReady, List.count_append]
    omega
  · intro t cb ht
    unfold ready
    rw [if_pos ht]

/-- Witness for `readiness_gate_order`: three calls queued behind a
fresh closed gate run in order `[1, 2, 3]` when the gate opens, and a
later call on the open gate runs immediately. -/
theorem readiness_gate_order_witness :
    (setReady (List.foldl ready
        { isReady := false, queue := [], executed := [] } [1, 2, 3])).executed
      = [1, 2, 3]
    ∧ (setReady (List.foldl ready
        { isReady := false, queue := [], executed := [] } [1, 2, 3])).queue
      = []
    ∧ (ready (setReady (List.foldl ready
        { isReady := false, queue := [], executed := [] } [1, 2, 3])) 4).executed
      = [1, 2, 3, 4] := by
  obtain ⟨-, -, h3, h4, -, h6⟩ := readiness_gate_order
    { isReady := false, queue := [], executed := [] } [1, 2, 3] rfl
  refine ⟨by simpa using h3, h4, ?_⟩
  rw [h6 _ 4 (by rfl)]
  simpa using congrArg (fun l => l ++ [4]) h3

/-! ### Claim C10 theorem -/

/-- C10: `track` returns `true` unconditionally — for every SDK state,
whether the readiness gate is open (event enqueued at once) or closed
(callback queued), the boolean result is `true`; later delivery plays
no part in it. -/
theorem track_returns_true (s : TrackState) (event : EventData) :
    (track s event).2 = true := rfl

/-! ### Claim C7 theorems -/

/-- Two distinct events as `track` builds them: `id` is never set, only
`insert_id` differs. -/
def c7EventA : EventData := mkTrackEvent "signup" [] [] 1000 "i1"

def c7EventB : EventData := mkTrackEvent "purchase" [] [] 1001 "i2"

/-- C7 failing input: the persisted queue holds `A` then `B` (both with
`id === undefined`, as `track` never sets `id`), and the create-event
call for `B` succeeds first.  The success handler compares on `id`, so
`undefined === undefined` matches at index 0 and removes `A` — an event
whose own create-event call never succeeded — while the delivered `B`
stays queued (to be re-sent on the next reload). -/
theorem event_removal_removes_undelivered_head :
    removeDeliveredEvent [c7EventA, c7EventB] c7EventB = [c7EventB]
      ∧ c7EventA ≠ c7EventB := by
  constructor
  · rfl
  · decide

/-! ### Map and listener lemmas for the form orchestrator -/

theorem mapGet_mapSet_self {α : Type} (m : List (String × α)) (k : String)
    (v : α) : mapGet (mapSet m k v) k = some v := by
  induction m with
  | nil => simp [mapSet, mapGet]
  | cons p t ih =>
    obtain ⟨k', v'⟩ := p
    by_cases h : k' = k
    · subst h
      simp [mapSet, mapGet]
    · simp [mapSet, mapGet, h, ih]

theorem mapGet_mapSet_ne {α : Type} (m : List (String × α)) (k k' : String)
    (v : α) (h : k' ≠ k) : mapGet (mapSet m k v) k' = mapGet m k' := by
  induction m with
  | nil => simp [mapSet, mapGet, if_neg (Ne.symm h)]
  | cons p t ih =>
    obtain ⟨k₁, v₁⟩ := p
    by_cases h₁ : k₁ = k
    · subst h₁
      simp [mapSet, mapGet, if_neg (Ne.symm h)]
    · simp only [mapSet, if_neg h₁]
      by_cases h₂ : k₁ = k'
      · subst h₂
        simp [mapGet]
      · simp [mapGet, h₂, ih]

theorem mapGet_mapDelete_ne {α : Type} (m : List (String × α))
    (k k' : String) (h : k' ≠ k) :
    mapGet (mapDelete m k) k' = mapGet m k' := by
  induction m with
  | nil => simp [mapDelete]
  | cons p t ih =>
    obtain ⟨k₁, v₁⟩ := p
    by_cases h₁ : k₁ = k
    · subst h₁
      simp [mapDelete, mapGet, if_neg (Ne.symm h)]
    · by_cases h₂ : k₁ = k'
      · subst h₂
        simp [mapDelete, mapGet, h₁]
      · simp [mapDelete, mapGet, h₁, h₂, ih]

theorem mapSet_mapSet_self {α : Type} (m : List (String × α)) (k : String)
    (v w : α) : mapSet (mapSet m k v) k w = mapSet m k w := by
  induction m with
  | nil => simp [mapSet]
  | cons p t ih =>
    obtain ⟨k₁, v₁⟩ := p
    by_cases h : k₁ = k
    · subst h
      simp [mapSet]
    · simp [mapSet, h, ih]

/-- Fields of `cleanupKey` untouched by listener cleanup. -/
theorem cleanupKey_fields (s : BuilderState) (k : String) :
    (cleanupKey s k).providerKind = s.providerKind
      ∧ (cleanupKey s k).nextHandlerId = s.nextHandlerId := by
  unfold cleanupKey cleanupFormListeners
  cases mapGet s.forms k with
  | none => exact ⟨rfl, rfl⟩
  | some f =>
    obtain ⟨fst, fsub, fap⟩ := f
    cases fsub <;> cases fap <;> cases fst <;> simp

/-- Under the builder invariant, cleaning up the card-form key detaches
every `submit` listener. -/
theorem cleanupKey_default_submitListeners (s : BuilderState)
    (hwf : wfBuilder s) :
    (cleanupKey s "stripe:default").submitListeners = [] := by
  obtain ⟨hw1, -, -, hw4⟩ := hwf
  unfold cleanupKey
  cases hget : mapGet s.forms "stripe:default" with
  | none =>
    rw [hw1]
    unfold submitListenersOf
    rw [hget]
  | some f =>
    have hstripe : f.isStripe = true := (hw4 _ _ hget).1 rfl
    have hlist : s.submitListeners = f.submitHandler.toList := by
      rw [hw1]
      unfold submitListenersOf
      rw [hget]
    obtain ⟨fst, fsub, fap⟩ := f
    simp only at hstripe
    subst hstripe
    unfold cleanupFormListeners
    cases fsub with
    | none =>
      cases fap <;> simp_all
    | some h =>
      cases fap <;> simp_all [List.erase_cons_head]

/-- The stripe card-form `show` path, explicitly: clean up the
`"stripe:default"` entry, then store the new form and attach a fresh
`submit` handler. -/
theorem showForm_card_eq (s : BuilderState) (env : PageEnv)
    (hkind : s.providerKind = "stripe")
    (hbtn : env.submitButtonPresent = true)
    (hform : env.formElementPresent = true)
    (hok : env.creationCallRejects = false) :
    (showForm s false env).1
      = { providerKind := (cleanupKey s "stripe:default").providerKind,
          forms := mapSet (cleanupKey s "stripe:default").forms
            "stripe:default"
            ⟨true, some (cleanupKey s "stripe:default").nextHandlerId, none⟩,
          submitListeners :=
            (cleanupKey s "stripe:default").submitListeners
              ++ [(cleanupKey s "stripe:default").nextHandlerId],
          applePayListeners :=
            (cleanupKey s "stripe:default").applePayListeners,
          nextHandlerId :=
            (cleanupKey s "stripe:default").nextHandlerId + 1 } := by
  have hkey : getFormKey s.providerKind false = "stripe:default" := by
    rw [hkind]
    rfl
  have hpk : (cleanupKey s "stripe:default").providerKind = "stripe" := by
    rw [(cleanupKey_fields s "stripe:default").1, hkind]
  unfold showForm stripeFormShow
  rw [hkey]
  simp [hpk, hbtn, hform, hok, mapSet_mapSet_self]

theorem mapDelete_eq_self_of_get_none {α : Type} (m : List (String × α))
    (k : String) (h : mapGet m k = none) : mapDelete m k = m := by
  induction m with
  | nil => rfl
  | cons p t ih =>
    obtain ⟨k₁, v₁⟩ := p
    by_cases h₁ : k₁ = k
    · subst h₁
      simp [mapGet] at h
    · simp only [mapGet, if_neg h₁] at h
      simp [mapDelete, h₁, ih h]

theorem mem_keys_mapSet {α : Type} {m : List (String × α)} {k k' : String}
    {v : α} (h : k' ∈ (mapSet m k v).map Prod.fst) :
    k' ∈ m.map Prod.fst ∨ k' = k := by
  induction m with
  | nil => simpa [mapSet] using h
  | cons p t ih =>
    obtain ⟨k₁, v₁⟩ := p
    by_cases h₁ : k₁ = k
    · subst h₁
      rcases (by simpa [mapSet] using h : k' = k₁ ∨ k' ∈ t.map Prod.fst) with
        hh | hh
      · exact Or.inr hh
      · exact Or.inl (by simp [hh])
    · rcases (by simpa [mapSet, h₁] using h :
          k' = k₁ ∨ k' ∈ (mapSet t k v).map Prod.fst) with hh | hh
      · exact Or.inl (by simp [hh])
      · rcases ih hh with hh' | hh'
        · exact Or.inl (by simp [hh'])
        · exact Or.inr hh'

theorem nodup_keys_mapSet {α : Type} (m : List (String × α)) (k : String)
    (v : α) (h : (m.map Prod.fst).Nodup) :
    ((mapSet m k v).map Prod.fst).Nodup := by
  induction m with
  | nil => simp [mapSet]
  | cons p t ih =>
    obtain ⟨k₁, v₁⟩ := p
    simp only [List.map_cons, List.nodup_cons] at h
    by_cases h₁ : k₁ = k
    · subst h₁
      simpa [mapSet] using h
    · simp only [mapSet, if_neg h₁, List.map_cons, List.nodup_cons]
      refine ⟨?_, ih h.2⟩
      intro hmem
      rcases mem_keys_mapSet hmem with hh | hh
      · exact h.1 hh
      · exact h₁ hh

theorem mapDelete_sublist {α : Type} (m : List (String × α)) (k : String) :
    (mapDelete m k).Sublist m := by
  induction m with
  | nil => simp [mapDelete]
  | cons p t ih =>
    obtain ⟨k₁, v₁⟩ := p
    by_cases h₁ : k₁ = k
    · subst h₁
      simpa [mapDelete] using List.sublist_cons_self (k, v₁) t
    · simpa [mapDelete, h₁] using List.Sublist.cons₂ (k₁, v₁) ih

theorem nodup_keys_mapDelete {α : Type} (m : List (String × α)) (k : String)
    (h : (m.map Prod.fst).Nodup) :
    ((mapDelete m k).map Prod.fst).Nodup :=
  ((mapDelete_sublist m k).map Prod.fst).nodup h

/-- `cleanupKey` leaves exactly `mapDelete` on the form map. -/
theorem cleanupKey_forms (s : BuilderState) (k : String) :
    (cleanupKey s k).forms = mapDelete s.forms k := by
  unfold cleanupKey cleanupFormListeners
  cases hget : mapGet s.forms k with
  | none => exact (mapDelete_eq_self_of_get_none s.forms k hget).symm
  | some f =>
    obtain ⟨fst, fsub, fap⟩ := f
    cases fsub <;> cases fap <;> cases fst <;> simp

/-- Cleaning up the card-form key right after a card `show` stored the
attached form: the one attached listener is removed. -/
theorem cleanupKey_after_card (t : BuilderState) (n : Nat)
    (hget : mapGet t.forms "stripe:default"
      = some ⟨true, some n, none⟩)
    (hlist : t.submitListeners = [n]) :
    (cleanupKey t "stripe:default").submitListeners = []
      ∧ (cleanupKey t "stripe:default").nextHandlerId = t.nextHandlerId := by
  unfold cleanupKey cleanupFormListeners
  rw [hget]
  simp [hlist, List.erase_cons_head]

/-- The invariant holds for a freshly constructed builder. -/
theorem wfBuilder_fresh (kind : String) :
    wfBuilder ⟨kind, [], [], [], 0⟩ := by
  refine ⟨rfl, by simp, by simp, ?_⟩
  intro k f h
  simp [mapGet] at h

/-! ### Claim C1 theorems -/

/-- C1: calling `show` twice in a row with the same provider and
variant key (the Stripe card form) and the same arguments leaves
exactly one active submit listener for that key: after the first call
exactly one listener `h1` is attached; the second call first runs the
cleanup of the form stored under the key — detaching `h1` — before
registering the new form, so afterwards exactly one listener `h2` is
attached, `h1` is gone, and the stored form holds `h2`. -/
theorem show_twice_single_submit_listener (s : BuilderState) (env : PageEnv)
    (hkind : s.providerKind = "stripe")
    (hwf : wfBuilder s)
    (hbtn : env.submitButtonPresent = true)
    (hform : env.formElementPresent = true)
    (hok : env.creationCallRejects = false) :
    ∃ h1 h2,
      (showForm s false env).1.submitListeners = [h1]
      ∧ (showForm (showForm s false env).1 false env).1.submitListeners = [h2]
      ∧ h1 ≠ h2
      ∧ h1 ∉ (showForm (showForm s false env).1 false env).1.submitListeners
      ∧ mapGet (showForm (showForm s false env).1 false env).1.forms
          "stripe:default" = some ⟨true, some h2, none⟩ := by
  have hclean := cleanupKey_default_submitListeners s hwf
  have h1eq := showForm_card_eq s env hkind hbtn hform hok
  have hlist₁ : (showForm s false env).1.submitListeners
      = [(cleanupKey s "stripe:default").nextHandlerId] := by
    rw [h1eq]
    simp [hclean]
  have hkind₁ : (showForm s false env).1.providerKind = "stripe" := by
    rw [h1eq]
    exact (cleanupKey_fields s "stripe:default").1.trans hkind
  have hnext₁ : (showForm s false env).1.nextHandlerId
      = (cleanupKey s "stripe:default").nextHandlerId + 1 := by
    rw [h1eq]
  have hforms₁ : mapGet (showForm s false env).1.forms "stripe:default"
      = some ⟨true, some (cleanupKey s "stripe:default").nextHandlerId,
          none⟩ := by
    rw [h1eq]
    exact mapGet_mapSet_self _ _ _
  have h2eq := showForm_card_eq (showForm s false env).1 env hkind₁
    hbtn hform hok
  have hcl₂ := cleanupKey_after_card (showForm s false env).1
    (cleanupKey s "stripe:default").nextHandlerId hforms₁ hlist₁
  have hn₂ : (cleanupKey (showForm s false env).1
        "stripe:default").nextHandlerId
      = (cleanupKey s "stripe:default").nextHandlerId + 1 :=
    hcl₂.2.trans hnext₁
  have hlist₂ : (showForm (showForm s false env).1 false env).1.submitListeners
      = [(cleanupKey s "stripe:default").nextHandlerId + 1] := by
    rw [h2eq]
    simp [hcl₂.1, hn₂]
  refine ⟨(cleanupKey s "stripe:default").nextHandlerId,
    (cleanupKey s "stripe:default").nextHandlerId + 1,
    hlist₁, hlist₂, by omega, ?_, ?_⟩
  · rw [hlist₂]
    simp
  · rw [h2eq]
    simp only [hn₂]
    exact mapGet_mapSet_self _ _ _

/-- The builder invariant is preserved by the card-form `show` path, so
it holds along any run of repeated `show` calls starting from a fresh
builder (`wfBuilder_fresh`). -/
theorem wfBuilder_showForm_card (s : BuilderState) (env : PageEnv)
    (hkind : s.providerKind = "stripe") (hwf : wfBuilder s)
    (hbtn : env.submitButtonPresent = true)
    (hform : env.formElementPresent = true)
    (hok : env.creationCallRejects = false) :
    wfBuilder (showForm s false env).1 := by
  have hclean := cleanupKey_default_submitListeners s hwf
  obtain ⟨hw1, hw2, hw3, hw4⟩ := hwf
  have h1eq := showForm_card_eq s env hkind hbtn hform hok
  rw [h1eq]
  refine ⟨?_, ?_, ?_, ?_⟩
  · unfold submitListenersOf
    dsimp only
    rw [mapGet_mapSet_self, hclean]
    simp
  · intro h hmem
    dsimp only at hmem ⊢
    rw [hclean] at hmem
    simp at hmem
    simp [hmem]
  · dsimp only
    apply nodup_keys_mapSet
    rw [cleanupKey_forms]
    exact nodup_keys_mapDelete _ _ hw3
  · intro k f hget
    dsimp only at hget
    by_cases hk : k = "stripe:default"
    · subst hk
      rw [mapGet_mapSet_self] at hget
      obtain rfl := Option.some.inj hget
      exact ⟨fun _ => rfl, fun hne => absurd rfl hne⟩
    · rw [mapGet_mapSet_ne _ _ _ _ hk, cleanupKey_forms,
        mapGet_mapDelete_ne _ _ _ hk] at hget
      exact hw4 k f hget

def c1State : BuilderState :=
  { providerKind := "stripe", forms := [], submitListeners := [],
    applePayListeners := [], nextHandlerId := 0 }

def c1Env : PageEnv :=
  { submitButtonPresent := true, formElementPresent := true,
    creationCallRejects := false, applePayAttachable := false }

/-- Witness for `show_twice_single_submit_listener` on a fresh Stripe
builder. -/
theorem show_twice_single_submit_listener_witness :
    ∃ h1 h2,
      (showForm c1State false c1Env).1.submitListeners = [h1]
      ∧ (showForm (showForm c1State false c1Env).1 false
          c1Env).1.submitListeners = [h2]
      ∧ h1 ≠ h2
      ∧ h1 ∉ (showForm (showForm c1State false c1Env).1 false
          c1Env).1.submitListeners
      ∧ mapGet (showForm (showForm c1State false c1Env).1 false
          c1Env).1.forms "stripe:default" = some ⟨true, some h2, none⟩ :=
  show_twice_single_submit_listener c1State c1Env rfl
    (wfBuilder_fresh "stripe") rfl rfl rfl

/-! ### Claim C5 theorems -/

/-- C5: in the Stripe submit flow, when subscription creation returns a
response carrying a `client_secret`, `confirmCardPayment` gates all
success handling: a confirmation failure emits `payment_failure` with
the confirmation error and performs no success handling (hence no
success redirect), success handling occurs only when confirmation
succeeded, and on success the `confirmCardPayment` call appears in the
trace strictly before the success handling. -/
theorem stripe_confirmation_gates_success (env : SubmitEnv)
    (sub : Subscription) (cs pm : String)
    (hstripe : env.stripeInited = true)
    (helems : env.elementsInited = true)
    (hsetup : env.confirmSetup = Except.ok pm)
    (hsub : env.createSub = Except.ok (some sub))
    (hcs : sub.client_secret = some cs) :
    (∀ ce, env.confirmCard cs = some ce →
        StripeAction.emitPaymentFailure ce ∈ stripeSubmitHandler env
        ∧ StripeAction.handleSuccess ∉ stripeSubmitHandler env)
    ∧ (StripeAction.handleSuccess ∈ stripeSubmitHandler env →
        env.confirmCard cs = none)
    ∧ (env.confirmCard cs = none →
        appearsBefore (stripeSubmitHandler env)
          (StripeAction.confirmCardPaymentCall cs)
          StripeAction.handleSuccess) := by
  cases hcc : env.confirmCard cs with
  | some ce' =>
    have htrace : stripeSubmitHandler env
        = [StripeAction.setButton "processing",
           StripeAction.confirmSetupCall,
           StripeAction.createSubscriptionCall,
           StripeAction.confirmCardPaymentCall cs,
           StripeAction.setButton "error",
           StripeAction.emitPaymentFailure ce'] := by
      unfold stripeSubmitHandler
      rw [hstripe, hsetup, hsub]
      simp [helems, hcs, hcc]
    refine ⟨?_, ?_, ?_⟩
    · intro ce hce
      obtain rfl : ce' = ce := Option.some.inj hce
      rw [htrace]
      exact ⟨by simp, by simp⟩
    · intro hmem
      rw [htrace] at hmem
      simp at hmem
    · intro hnone
      exact Option.noConfusion hnone
  | none =>
    have htrace : stripeSubmitHandler env
        = [StripeAction.setButton "processing",
           StripeAction.confirmSetupCall,
           StripeAction.createSubscriptionCall,
           StripeAction.confirmCardPaymentCall cs,
           StripeAction.handleSuccess] := by
      unfold stripeSubmitHandler
      rw [hstripe, hsetup, hsub]
      simp [helems, hcs, hcc]
    refine ⟨?_, fun _ => rfl, ?_⟩
    · intro ce hce
      exact Option.noConfusion hce
    · intro _
      rw [htrace]
      exact ⟨4, by simp, by simp⟩

def c5Sub : Subscription :=
  { id := some "sub_1", client_secret := some "cs_x", deep_link := none }

def c5Env : SubmitEnv :=
  { stripeInited := true, elementsInited := true,
    confirmSetup := Except.ok "pm_1",
    createSub := Except.ok (some c5Sub),
    confirmCard := fun _ => none }

/-- Witness for `stripe_confirmation_gates_success`: a subscription
response with `client_secret = "cs_x"`, confirmation succeeding —
confirmation precedes the success handling. -/
theorem stripe_confirmation_gates_success_witness :
    appearsBefore (stripeSubmitHandler c5Env)
      (StripeAction.confirmCardPaymentCall "cs_x")
      StripeAction.handleSuccess :=
  (stripe_confirmation_gates_success c5Env c5Sub "cs_x" "pm_1"
    rfl rfl rfl rfl rfl).2.2 rfl

/-! ### Claim C6 theorems -/

def c6BundleNoProps : ProductBundle :=
  { id := "b6", name := "Pro", products := [], properties := none }

/-- C6 counterexample: the claim states that with no static price and
no resolvable price value the flow fails closed (error logged, no
payment-request created, button never revealed).  But when the bundle
carries *no* localized property map at all — so no value can resolve
for any price variable — the variable branch is skipped entirely and
`initializeApplePay` constructs a payment request with the surviving
defaults (`amount = 0`, `currency = 'usd'`), with no error and with the
button reveal flow still live. -/
theorem applepay_no_properties_counterexample :
    initApplePay true (some c6BundleNoProps) none
        (fun _ _ => none) (fun _ d => d)
      = APInitResult.request "usd" 0 "Pro" := rfl

/-- C6 (amended): when no static price is supplied and the bundle
*does* carry a localized property map in which the configured price
variable resolves to no value, the flow fails closed: the
initialization aborts with a logged error before the payment request
is constructed, so no payment-request object exists and the Apple Pay
button is never revealed. -/
theorem applepay_fails_closed (bundle : ProductBundle)
    (props : List (String × List (String × String)))
    (cfg : Option ApplePayCfg)
    (getVbp : List (String × List (String × String)) → String → Option String)
    (extractCur : String → String → String)
    (hprops : bundle.properties = some props)
    (hstatic : cfg.bind (·.staticPrice) = none)
    (hres : getVbp props ((cfg.bind (·.priceVar)).getD "new-price") = none) :
    initApplePay true (some bundle) cfg getVbp extractCur
      = APInitResult.aborted ("No price found for "
          ++ ((cfg.bind (·.priceVar)).getD "new-price")
          ++ " in bundle properties") := by
  unfold initApplePay
  simp [hstatic, hprops, hres]

def c6Props : List (String × List (String × String)) :=
  [("en", [("old-price", "10 USD")])]

def c6BundleProps : ProductBundle :=
  { id := "b6b", name := "Pro", products := [], properties := some c6Props }

/-- Witness for `applepay_fails_closed`: a bundle whose property map
has no `"new-price"` entry, no static price supplied. -/
theorem applepay_fails_closed_witness :
    initApplePay true (some c6BundleProps) none
        (fun _ _ => none) (fun _ d => d)
      = APInitResult.aborted
          ("No price found for " ++ "new-price" ++ " in bundle properties") :=
  applepay_fails_closed c6BundleProps c6Props none
    (fun _ _ => none) (fun _ d => d) rfl rfl rfl

/-! ### Claim C8 theorems -/

def c8Provider : PaymentProvider :=
  { id := "pp8", identifier := "acct8", kind := "stripe" }

def c8Product : Product :=
  { id := "pr8", product_id := "prod8", base_plan_id := "plan8",
    store := "stripe" }

def c8Env : PaymentFormEnv :=
  { requestedProvider := none,
    currentPaymentProviders := [("stripe", c8Provider)],
    currentProducts := [("stripe", c8Product)],
    paywallPresent := true, placementPresent := true, userPresent := true,
    productArg := none,
    builderShowResult := formBuilderShowOutcome "stripe"
      (Except.error "network error") (Except.ok ()) }

/-- C8 counterexample: with a valid provider, product, paywall,
placement and user, a `paymentForm` call whose `builder.show` rejects
(here: `api.createCustomer` rejecting inside `StripeForm.show`, which
nothing catches) ends as an uncaught rejection reaching the host page
— the claim says such internal failures are always caught and
converted to a log line and/or lifecycle event. -/
theorem paymentForm_uncaught_counterexample :
    paymentForm c8Env = PFOutcome.uncaughtRejection "network error"
      ∧ c8Env.builderShowResult
        = formBuilderShowOutcome "stripe"
            (Except.error "network error") (Except.ok ()) :=
  ⟨rfl, rfl⟩

/-- C8 (amended): all validation failures inside `paymentForm` (missing
provider, product, paywall, placement, product id, user) are caught and
converted to a logged error and/or lifecycle event; but a rejection of
`builder.show` itself — a thrown unsupported-provider-kind error, or a
rejected customer/subscription-creation call propagating out of the
form's `show` — is not caught and reaches the host page as an uncaught
rejection; that is the only source of uncaught rejections. -/
theorem paymentForm_uncaught_iff_show_rejects (env : PaymentFormEnv)
    (e : String) :
    (paymentForm env = PFOutcome.uncaughtRejection e →
      env.builderShowResult = Except.error e)
    ∧ (env.builderShowResult = Except.ok () →
      paymentForm env ≠ PFOutcome.uncaughtRejection e) := by
  constructor
  · intro h
    unfold paymentForm at h
    split at h
    · split at h <;> exact absurd h (by simp)
    · split at h
      · exact absurd h (by simp)
      · split_ifs at h <;>
          first
          | (split at h <;>
              first
              | (rename_i e' heq
                 obtain rfl : e' = e := by simpa using h
                 exact heq)
              | exact absurd h (by simp))
          | exact absurd h (by simp)
  · intro hok h
    unfold paymentForm at h
    split at h
    · split at h <;> exact absurd h (by simp)
    · split at h
      · exact absurd h (by simp)
      · split_ifs at h <;>
          first
          | exact absurd h (by simp)
          | (rw [hok] at h
             exact absurd h (by simp))

def c8EnvOk : PaymentFormEnv :=
  { requestedProvider := none,
    currentPaymentProviders := [("stripe", c8Provider)],
    currentProducts := [("stripe", c8Product)],
    paywallPresent := true, placementPresent := true, userPresent := true,
    productArg := none,
    builderShowResult := formBuilderShowOutcome "stripe"
      (Except.ok ()) (Except.ok ()) }

/-- Witness for `paymentForm_uncaught_iff_show_rejects`: when
`builder.show` resolves, no uncaught rejection occurs. -/
theorem paymentForm_uncaught_iff_show_rejects_witness :
    paymentForm c8EnvOk ≠ PFOutcome.uncaughtRejection "network error" :=
  (paymentForm_uncaught_iff_show_rejects c8EnvOk "network error").2 rfl

end ApphudSpec
